import Mathlib

/-!
Verification of `scripts/download_models.py`: a model-pack downloader
consisting of a static catalog (`MODEL_PACKS`), a single-file fetch
operation (`download_file`), a pack-level fetch loop
(`download_model_pack`), a listing mode (`list_model_packs`) and a
command-line dispatcher.

Shallow embedding conventions:
- The filesystem is the list of paths that currently exist (`RunState.fs`);
  `Path.exists()` is list membership, writing a file adds its path,
  `Path.unlink()` removes it.
- Network effects are counted in `RunState.requests`; the outcome of the
  single HTTP GET that `download_file` performs for a given URL is given by
  an oracle `String → TransferOutcome`, quantified over in the theorems.
- Console output is abstracted into a `Report` trace (`RunState.log`);
  purely cosmetic separator lines are not modelled.
- Human-readable size labels are kept as the strings of the source; the
  numeric portion `float(size.split()[0])` is modelled exactly in
  hundredths of a unit (every label in the catalog has at most two
  fractional digits, so this equals the Python float value scaled by 100).
-/

/-- Outcome of the single streamed `requests.get` transfer attempted by
`download_file` when the destination does not exist.  The error
constructors correspond to the exception classes that can escape the
`try` block: connection errors, timeouts, `raise_for_status` HTTP errors,
and errors while writing chunks to the destination file (the latter is the
one raised after part of the file has already been written). -/
inductive TransferOutcome where
  | success
  | connError
  | timeoutError
  | httpStatusError
  | writeError
deriving DecidableEq, Repr

/-- Whether the failure occurs after bytes have been written to the
destination file (so that a partial file exists when the exception is
raised). -/
def TransferOutcome.partialWrite : TransferOutcome → Bool
  | .writeError => true
  | _ => false

/-- Abstraction of the script's console output: one constructor per kind of
`print` that the claims talk about. -/
inductive Report where
  | alreadyExists (path : String)
  | downloading (url : String)
  | downloaded (path : String)
  | downloadError (path : String)
  | skippingOptional (entry : String)
  | packNotFound (packName : String) (available : List String)
  | packHeader (name description : String)
  | packListEntry (key name description : String)
      (mainCount loraCount cnCount : Nat) (estCentiGB : Nat)
deriving DecidableEq, Repr

/-- One entry of a pack group: `{url, path, size, optional}` where
`optional` defaults to `False` (`file_info.get('optional', False)`). -/
structure FileEntry where
  url : String
  path : String
  size : String
  optional : Bool := false
deriving DecidableEq, Repr

/-- One value of `MODEL_PACKS`.  A group that is absent from the Python
dict is the empty list here: for downloading, `'loras' in pack` guarding a
loop over `pack['loras']` behaves exactly like looping over an empty
group, and for listing, `pack.get('loras', {})` is the empty dict.  The
`embeddings` group is carried because the `sdxl` pack declares it; note
that `download_model_pack` never reads it. -/
structure Pack where
  name : String
  description : String
  files : List (String × FileEntry)
  loras : List (String × FileEntry) := []
  controlnet : List (String × FileEntry) := []
  embeddings : List (String × FileEntry) := []
deriving DecidableEq, Repr

/-- The observable state of a run: which paths exist on disk, how many
network requests have been made, and the output produced so far. -/
structure RunState where
  fs : List String
  requests : Nat
  log : List Report
deriving DecidableEq, Repr

/-- Append one report to the output trace. -/
def pushLog (r : Report) (s : RunState) : RunState :=
  { s with log := s.log ++ [r] }

/-- Root directory: `MODEL_DIR = Path(os.getenv('MODEL_DIR', '/workspace/models'))`
with the environment variable unset. -/
def MODEL_DIR : String := "/workspace/models"

/-- Path join, modelling `Path.__truediv__`. -/
def slash (d f : String) : String := d ++ "/" ++ f

def CHECKPOINTS_DIR : String := slash MODEL_DIR "checkpoints"

def UNET_DIR : String := slash MODEL_DIR "unet"

def UPSCALE_MODELS_DIR : String := slash MODEL_DIR "upscale_models"

def VAE_DIR : String := slash MODEL_DIR "vae"

def CLIP_DIR : String := slash MODEL_DIR "clip"

def LORAS_DIR : String := slash MODEL_DIR "loras"

def CONTROLNET_DIR : String := slash MODEL_DIR "controlnet"

def IPADAPTER_DIR : String := slash MODEL_DIR "ipadapter"

def EMBEDDINGS_DIR : String := slash MODEL_DIR "embeddings"

def STYLE_MODELS_DIR : String := slash MODEL_DIR "style_models"

/-- Embedding of `download_file(url, destination)`.  If the destination
already exists the call is a skip; otherwise exactly one request is made,
and on any raised transfer error the handler deletes a partially written
destination file (`if destination.exists(): destination.unlink()`) and
returns `False`. -/
def download_file (oracle : String → TransferOutcome) (url destination : String)
    (s : RunState) : Bool × RunState :=
  if destination ∈ s.fs then
    (true, pushLog (.alreadyExists destination) s)
  else
    let s1 : RunState :=
      { pushLog (.downloading url) s with requests := s.requests + 1 }
    match oracle url with
    | .success =>
        (true, pushLog (.downloaded destination) { s1 with fs := destination :: s1.fs })
    | outcome =>
        let fsMid := if outcome.partialWrite then destination :: s1.fs else s1.fs
        let fsEnd := if destination ∈ fsMid then fsMid.erase destination else fsMid
        (false, pushLog (.downloadError destination) { s1 with fs := fsEnd })

/-- The `'flux-dev'` pack of `MODEL_PACKS`. -/
def flux_dev_pack : Pack :=
  { name := "FLUX.1-dev"
    description := "Black Forest Labs FLUX.1-dev (12B parameter model)"
    files :=
      [ ("checkpoint",
         { url := "https://huggingface.co/black-forest-labs/FLUX.1-dev/resolve/main/flux1-dev.safetensors"
           path := slash CHECKPOINTS_DIR "flux1-dev.safetensors"
           size := "23.8 GB" })
      , ("clip_l",
         { url := "https://huggingface.co/comfyanonymous/flux_text_encoders/resolve/main/clip_l.safetensors"
           path := slash CLIP_DIR "clip_l.safetensors"
           size := "246 MB" })
      , ("t5xxl",
         { url := "https://huggingface.co/comfyanonymous/flux_text_encoders/resolve/main/t5xxl_fp16.safetensors"
           path := slash CLIP_DIR "t5xxl_fp16.safetensors"
           size := "9.79 GB" })
      , ("vae",
         { url := "https://huggingface.co/black-forest-labs/FLUX.1-dev/resolve/main/ae.safetensors"
           path := slash VAE_DIR "flux_vae.safetensors"
           size := "335 MB" }) ]
    loras :=
      [ ("flux-realism",
         { url := "https://huggingface.co/XLabs-AI/flux-RealismLora/resolve/main/lora.safetensors"
           path := slash LORAS_DIR "flux-realism.safetensors"
           size := "382 MB"
           optional := true }) ] }

/-- The `'flux-schnell'` pack of `MODEL_PACKS`. -/
def flux_schnell_pack : Pack :=
  { name := "FLUX.1-schnell"
    description := "Black Forest Labs FLUX.1-schnell (fast inference)"
    files :=
      [ ("checkpoint",
         { url := "https://huggingface.co/black-forest-labs/FLUX.1-schnell/resolve/main/flux1-schnell.safetensors"
           path := slash CHECKPOINTS_DIR "flux1-schnell.safetensors"
           size := "23.8 GB" })
      , ("clip_l",
         { url := "https://huggingface.co/comfyanonymous/flux_text_encoders/resolve/main/clip_l.safetensors"
           path := slash CLIP_DIR "clip_l.safetensors"
           size := "246 MB" })
      , ("t5xxl",
         { url := "https://huggingface.co/comfyanonymous/flux_text_encoders/resolve/main/t5xxl_fp8_e4m3fn.safetensors"
           path := slash CLIP_DIR "t5xxl_fp8_e4m3fn.safetensors"
           size := "4.89 GB" })
      , ("vae",
         { url := "https://huggingface.co/black-forest-labs/FLUX.1-schnell/resolve/main/ae.safetensors"
           path := slash VAE_DIR "flux_vae.safetensors"
           size := "335 MB" }) ] }

/-- The `'sdxl'` pack of `MODEL_PACKS`.  It is the only pack declaring an
`embeddings` group. -/
def sdxl_pack : Pack :=
  { name := "Stable Diffusion XL"
    description := "Stability AI SDXL 1.0 base model"
    files :=
      [ ("checkpoint",
         { url := "https://huggingface.co/stabilityai/stable-diffusion-xl-base-1.0/resolve/main/sd_xl_base_1.0.safetensors"
           path := slash CHECKPOINTS_DIR "sd_xl_base_1.0.safetensors"
           size := "6.94 GB" })
      , ("refiner",
         { url := "https://huggingface.co/stabilityai/stable-diffusion-xl-refiner-1.0/resolve/main/sd_xl_refiner_1.0.safetensors"
           path := slash CHECKPOINTS_DIR "sd_xl_refiner_1.0.safetensors"
           size := "6.08 GB"
           optional := true })
      , ("vae",
         { url := "https://huggingface.co/stabilityai/sdxl-vae/resolve/main/sdxl_vae.safetensors"
           path := slash VAE_DIR "sdxl_vae.safetensors"
           size := "335 MB" }) ]
    loras :=
      [ ("realistic_skin_texture",
         { url := "https://civitai.com/api/download/models/707763?token=b52f18fe1b10f6878747dbd8419924dc"
           path := slash LORAS_DIR "realistic_skin_texture_v4.safetensors"
           size := "144 MB"
           optional := true })
      , ("skin_realism_acne",
         { url := "https://civitai.com/api/download/models/340833?token=b52f18fe1b10f6878747dbd8419924dc"
           path := slash LORAS_DIR "skin_realism_acne_details.safetensors"
           size := "143 MB"
           optional := true })
      , ("touch_of_realism",
         { url := "https://civitai.com/api/download/models/1934796?token=b52f18fe1b10f6878747dbd8419924dc"
           path := slash LORAS_DIR "touch_of_realism_sdxl_v2.safetensors"
           size := "143 MB"
           optional := true }) ]
    embeddings :=
      [ ("realistic_skin_ti",
         { url := "https://civitai.com/api/download/models/2192131?token=b52f18fe1b10f6878747dbd8419924dc"
           path := slash EMBEDDINGS_DIR "RealisticSkin.safetensors"
           size := "12 KB"
           optional := true }) ] }

/-- The `'sdxl-biglove'` pack of `MODEL_PACKS`. -/
def sdxl_biglove_pack : Pack :=
  { name := "SDXL Big Love (Photorealistic Checkpoint)"
    description := "Community fine-tuned SDXL checkpoint focused on photorealistic portraits"
    files :=
      [ ("checkpoint",
         { url := "https://civitai.com/api/download/models/2291289?token=b52f18fe1b10f6878747dbd8419924dc"
           path := slash CHECKPOINTS_DIR "bigLove_insta1.safetensors"
           size := "6.46 GB" })
      , ("vae",
         { url := "https://huggingface.co/stabilityai/sdxl-vae/resolve/main/sdxl_vae.safetensors"
           path := slash VAE_DIR "sdxl_vae.safetensors"
           size := "335 MB" }) ]
    loras :=
      [ ("realistic_skin_texture",
         { url := "https://civitai.com/api/download/models/707763?token=b52f18fe1b10f6878747dbd8419924dc"
           path := slash LORAS_DIR "realistic_skin_texture_v4.safetensors"
           size := "144 MB"
           optional := true }) ] }

/-- The `'wan22'` pack of `MODEL_PACKS`. -/
def wan22_pack : Pack :=
  { name := "WAN 2.2 (Text-to-Video 14B)"
    description := "Wuerstchen Architecture Network 2.2 - High quality text-to-video generation (14B params)"
    files :=
      [ ("unet_low_noise",
         { url := "https://huggingface.co/MaxedOut/ComfyUI-Starter-Packs/resolve/main/Wan2.2/unet_14b/wan2.2_t2v_low_noise_14B_fp8_scaled.safetensors"
           path := slash UNET_DIR "wan2.2_t2v_low_noise_14B_fp8_scaled.safetensors"
           size := "13.5 GB" })
      , ("unet_high_noise",
         { url := "https://huggingface.co/MaxedOut/ComfyUI-Starter-Packs/resolve/main/Wan2.2/unet_14b/wan2.2_t2v_high_noise_14B_fp8_scaled.safetensors"
           path := slash UNET_DIR "wan2.2_t2v_high_noise_14B_fp8_scaled.safetensors"
           size := "13.5 GB" })
      , ("clip",
         { url := "https://huggingface.co/MaxedOut/ComfyUI-Starter-Packs/resolve/main/Wan2.2/clip/umt5_xxl_fp8_e4m3fn_scaled.safetensors"
           path := slash CLIP_DIR "umt5_xxl_fp8_e4m3fn_scaled.safetensors"
           size := "4.89 GB" })
      , ("vae",
         { url := "https://huggingface.co/MaxedOut/ComfyUI-Starter-Packs/resolve/main/Wan2.2/vae/wan_2.1_vae.safetensors"
           path := slash VAE_DIR "wan_2.1_vae.safetensors"
           size := "335 MB" }) ]
    loras :=
      [ ("lightning_low",
         { url := "https://huggingface.co/MaxedOut/ComfyUI-Starter-Packs/resolve/main/Wan2.2/loras_14b/Wan2.2-Lightning_T2V-v1.1-A14B-4steps-lora_LOW_fp16.safetensors"
           path := slash LORAS_DIR "wan22_lightning_low_4steps.safetensors"
           size := "2.1 GB"
           optional := true })
      , ("lightning_high",
         { url := "https://huggingface.co/MaxedOut/ComfyUI-Starter-Packs/resolve/main/Wan2.2/loras_14b/Wan2.2-Lightning_T2V-v1.1-A14B-4steps-lora_HIGH_fp16.safetensors"
           path := slash LORAS_DIR "wan22_lightning_high_4steps.safetensors"
           size := "2.1 GB"
           optional := true })
      , ("lenovo_ultrareal",
         { url := "https://civitai.com/api/download/models/2066914?token=b52f18fe1b10f6878747dbd8419924dc"
           path := slash LORAS_DIR "lenovo_ultrareal_wan22.safetensors"
           size := "2.1 GB"
           optional := true }) ] }

/-- The `'qwen-image'` pack of `MODEL_PACKS`. -/
def qwen_image_pack : Pack :=
  { name := "Qwen Image Edit 2509 (Lightning)"
    description := "Alibaba Qwen 2.5 VL - Image editing and generation with 4-step Lightning inference"
    files :=
      [ ("checkpoint",
         { url := "https://huggingface.co/Comfy-Org/Qwen-Image_ComfyUI/resolve/main/split_files/diffusion_models/qwen_image_2509_fp8_scaled.safetensors"
           path := slash CHECKPOINTS_DIR "qwen_image_2509_fp8_scaled.safetensors"
           size := "7.8 GB" })
      , ("text_encoder",
         { url := "https://huggingface.co/Comfy-Org/Qwen-Image_ComfyUI/resolve/main/split_files/text_encoders/qwen_2.5_vl_7b_fp8_scaled.safetensors"
           path := slash CLIP_DIR "qwen_2.5_vl_7b_fp8_scaled.safetensors"
           size := "4.2 GB" })
      , ("vae",
         { url := "https://huggingface.co/Comfy-Org/Qwen-Image_ComfyUI/resolve/main/split_files/vae/qwen_image_vae.safetensors"
           path := slash VAE_DIR "qwen_image_vae.safetensors"
           size := "335 MB" }) ]
    loras :=
      [ ("lightning_v1",
         { url := "https://huggingface.co/lightx2v/Qwen-Image-Lightning/resolve/main/Qwen-Image-Lightning-4steps-V1.0.safetensors"
           path := slash LORAS_DIR "qwen_image_lightning_4steps_v1.0.safetensors"
           size := "1.2 GB"
           optional := true })
      , ("lightning_alt",
         { url := "https://huggingface.co/alexgenovese/checkpoint/resolve/main/Qwen/Qwen-Image-Lightning-4steps-V1.0.safetensors"
           path := slash LORAS_DIR "qwen_image_lightning_4steps_alt.safetensors"
           size := "1.2 GB"
           optional := true }) ] }

/-- The `'sd15'` pack of `MODEL_PACKS`.  It is the only pack declaring a
`controlnet` group. -/
def sd15_pack : Pack :=
  { name := "Stable Diffusion 1.5"
    description := "Classic SD 1.5 - still widely used"
    files :=
      [ ("checkpoint",
         { url := "https://huggingface.co/runwayml/stable-diffusion-v1-5/resolve/main/v1-5-pruned-emaonly.safetensors"
           path := slash CHECKPOINTS_DIR "v1-5-pruned-emaonly.safetensors"
           size := "3.97 GB" })
      , ("vae",
         { url := "https://huggingface.co/stabilityai/sd-vae-ft-mse-original/resolve/main/vae-ft-mse-840000-ema-pruned.safetensors"
           path := slash VAE_DIR "sd15_vae.safetensors"
           size := "335 MB" }) ]
    controlnet :=
      [ ("canny",
         { url := "https://huggingface.co/lllyasviel/ControlNet-v1-1/resolve/main/control_v11p_sd15_canny.pth"
           path := slash CONTROLNET_DIR "control_v11p_sd15_canny.pth"
           size := "1.45 GB"
           optional := true })
      , ("depth",
         { url := "https://huggingface.co/lllyasviel/ControlNet-v1-1/resolve/main/control_v11f1p_sd15_depth.pth"
           path := slash CONTROLNET_DIR "control_v11f1p_sd15_depth.pth"
           size := "1.45 GB"
           optional := true }) ] }

/-- The `'upscalers'` pack of `MODEL_PACKS`. -/
def upscalers_pack : Pack :=
  { name := "AI Upscaler Pack (Image & Video)"
    description := "Complete upscaling suite - ESRGAN, RealESRGAN, SeedVR2, and detail enhancement models"
    files :=
      [ ("seedvr2",
         { url := "https://huggingface.co/numz/SeedVR2_comfyUI/resolve/main/seedvr2_ema_7b_sharp_fp8_e4m3fn.safetensors"
           path := slash UPSCALE_MODELS_DIR "seedvr2_ema_7b_sharp_fp8.safetensors"
           size := "7.2 GB" })
      , ("realesrgan_x4plus",
         { url := "https://github.com/xinntao/Real-ESRGAN/releases/download/v0.1.0/RealESRGAN_x4plus.pth"
           path := slash UPSCALE_MODELS_DIR "RealESRGAN_x4plus.pth"
           size := "64 MB" })
      , ("realesrgan_x4plus_anime",
         { url := "https://github.com/xinntao/Real-ESRGAN/releases/download/v0.2.2.4/RealESRGAN_x4plus_anime_6B.pth"
           path := slash UPSCALE_MODELS_DIR "RealESRGAN_x4plus_anime_6B.pth"
           size := "17.9 MB" })
      , ("ultrasharp_4x",
         { url := "https://huggingface.co/lokCX/4x-Ultrasharp/resolve/main/4x-UltraSharp.pth"
           path := slash UPSCALE_MODELS_DIR "4x-UltraSharp.pth"
           size := "67 MB" })
      , ("lollypop_4x",
         { url := "https://huggingface.co/Kim2091/UltraSharp/resolve/main/4x-Lollypop.pth"
           path := slash UPSCALE_MODELS_DIR "4x-Lollypop.pth"
           size := "67 MB"
           optional := true })
      , ("nmkd_superscale",
         { url := "https://huggingface.co/gemasai/4x_NMKD-Superscale-SP_178000_G/resolve/main/4x_NMKD-Superscale-SP_178000_G.pth"
           path := slash UPSCALE_MODELS_DIR "4x_NMKD-Superscale-SP_178000_G.pth"
           size := "67 MB"
           optional := true })
      , ("ldsr",
         { url := "https://huggingface.co/lllyasviel/Annotators/resolve/main/ldsr/last.ckpt"
           path := slash UPSCALE_MODELS_DIR "ldsr.ckpt"
           size := "2.0 GB"
           optional := true }) ]
    loras :=
      [ ("skin_detail_lite",
         { url := "https://huggingface.co/gemasai/x1_ITF_SkinDiffDetail_Lite_v1/resolve/main/x1_ITF_SkinDiffDetail_Lite_v1.safetensors"
           path := slash LORAS_DIR "skin_detail_lite_v1.safetensors"
           size := "144 MB"
           optional := true })
      , ("detail_tweaker",
         { url := "https://huggingface.co/Birchlabs/detail-tweaker-xl/resolve/main/detail-tweaker-xl.safetensors"
           path := slash LORAS_DIR "detail_tweaker_xl.safetensors"
           size := "23 MB"
           optional := true }) ] }

/-- The catalog `MODEL_PACKS`, an insertion-ordered association list of
pack key to pack (Python dicts preserve insertion order). -/
def MODEL_PACKS : List (String × Pack) :=
  [ ("flux-dev", flux_dev_pack)
  , ("flux-schnell", flux_schnell_pack)
  , ("sdxl", sdxl_pack)
  , ("sdxl-biglove", sdxl_biglove_pack)
  , ("wan22", wan22_pack)
  , ("qwen-image", qwen_image_pack)
  , ("sd15", sd15_pack)
  , ("upscalers", upscalers_pack) ]

/-- The keys of the catalog, in declaration order (`MODEL_PACKS.keys()`). -/
def packKeys : List String := MODEL_PACKS.map Prod.fst

/-- Dictionary lookup `MODEL_PACKS[pack_name]` guarded by
`pack_name not in MODEL_PACKS`. -/
def lookupPack (packName : String) : Option Pack := MODEL_PACKS.lookup packName

/-- Trace of what happened to one group entry during a pack run:
either it was skipped because `skip_optional` was set and the entry was
flagged optional, or `download_file` was invoked on it and returned `ok`.
The entry's optional flag is recorded alongside. -/
inductive FileResult where
  | skippedOptional (entry : String)
  | fetched (entry : String) (opt : Bool) (ok : Bool)
deriving DecidableEq, Repr

/-- Embedding of the main-files loop of `download_model_pack`: threads the
`success` flag exactly as the source does (`success = False` when a
non-optional entry's `download_file` returns `False`), and additionally
records a `FileResult` trace of the iteration. -/
def processMainFiles (oracle : String → TransferOutcome) (skipOptional : Bool) :
    List (String × FileEntry) → Bool → RunState → Bool × List FileResult × RunState
  | [], success, s => (success, [], s)
  | (entryName, fi) :: rest, success, s =>
    if skipOptional && fi.optional then
      let t := processMainFiles oracle skipOptional rest success
        (pushLog (.skippingOptional entryName) s)
      (t.1, .skippedOptional entryName :: t.2.1, t.2.2)
    else
      let d := download_file oracle fi.url fi.path s
      let success1 := if !d.1 && !fi.optional then false else success
      let t := processMainFiles oracle skipOptional rest success1 d.2
      (t.1, .fetched entryName fi.optional d.1 :: t.2.1, t.2.2)

/-- Embedding of the LoRA and ControlNet loops of `download_model_pack`:
same iteration as the main loop but the return value of `download_file`
is discarded (failures never affect pack success). -/
def processAuxFiles (oracle : String → TransferOutcome) (skipOptional : Bool) :
    List (String × FileEntry) → RunState → List FileResult × RunState
  | [], s => ([], s)
  | (entryName, fi) :: rest, s =>
    if skipOptional && fi.optional then
      let t := processAuxFiles oracle skipOptional rest
        (pushLog (.skippingOptional entryName) s)
      (.skippedOptional entryName :: t.1, t.2)
    else
      let d := download_file oracle fi.url fi.path s
      let t := processAuxFiles oracle skipOptional rest d.2
      (.fetched entryName fi.optional d.1 :: t.1, t.2)

/-- Result of a `download_model_pack` run: the returned boolean plus the
iteration traces of the three groups the source loops over (the traces are
instrumentation; the source only prints). -/
structure PackRunResult where
  success : Bool
  mainResults : List FileResult
  loraResults : List FileResult
  cnResults : List FileResult
  state : RunState
deriving DecidableEq, Repr

/-- Embedding of `download_model_pack(pack_name, skip_optional, skip_loras,
skip_controlnet)`.  Unknown keys report the available keys and return
`False`; otherwise the main-files group is processed with the success
flag, then — mirroring `if 'loras' in pack and not skip_loras` and the
analogous ControlNet guard — the LoRA and ControlNet groups are processed
without affecting the flag.  The `embeddings` group of a pack is never
read, as in the source. -/
def download_model_pack (oracle : String → TransferOutcome) (packName : String)
    (skipOptional skipLoras skipControlnet : Bool) (s : RunState) : PackRunResult :=
  match lookupPack packName with
  | none =>
      { success := false, mainResults := [], loraResults := [], cnResults := []
        state := pushLog (.packNotFound packName packKeys) s }
  | some pack =>
      let s0 := pushLog (.packHeader pack.name pack.description) s
      let m := processMainFiles oracle skipOptional pack.files true s0
      let l :=
        if !skipLoras then processAuxFiles oracle skipOptional pack.loras m.2.2
        else ([], m.2.2)
      let c :=
        if !skipControlnet then processAuxFiles oracle skipOptional pack.controlnet l.2
        else ([], l.2)
      { success := m.1, mainResults := m.2.1, loraResults := l.1
        cnResults := c.1, state := c.2 }

/-- Numeric value of a digit string read left to right. -/
def digitsVal (cs : List Char) : Nat :=
  cs.foldl (fun n c => n * 10 + (c.toNat - 48)) 0

/-- Value of a decimal literal such as `"23.8"` in hundredths.  Every size
label in the catalog has at most two fractional digits, so this is exactly
the Python `float(...)` value scaled by 100. -/
def centiVal (cs : List Char) : Nat :=
  let w := cs.takeWhile (fun c => c != '.')
  let f := (cs.dropWhile (fun c => c != '.')).drop 1
  digitsVal w * 100 + digitsVal f * 100 / 10 ^ f.length

/-- Substring test for `'GB' in size`. -/
def hasGBsub : List Char → Bool
  | [] => false
  | c :: rest => (c == 'G' && rest.head? == some 'B') || hasGBsub rest

/-- Whether a size label mentions gigabytes: `'GB' in f.get('size', '')`. -/
def sizeHasGB (sz : String) : Bool := hasGBsub sz.data

/-- Numeric portion of a size label, `float(size.split()[0])`, in
hundredths of the label's unit. -/
def sizeNumCenti (sz : String) : Nat :=
  centiVal (sz.data.takeWhile (fun c => c != ' '))

/-- Estimated pack size shown by `list_model_packs`, in hundredths of a
GB: the source sums `float(f['size'].split()[0])` over the entries of
`pack['files']` whose size label contains `'GB'`. -/
def estimatedSizeCentiGB (p : Pack) : Nat :=
  (p.files.filter (fun fe => sizeHasGB fe.2.size)).foldl
    (fun acc fe => acc + sizeNumCenti fe.2.size) 0

/-- Modelled from the spec, for comparison only (this is the reading of
the claim in which every gigabyte-scale label of the pack contributes):
the sum of the numeric portions of the GB-scale size labels over all three
iterated groups, not just the main-files group. -/
def specEstimatedSizeAllGroupsCentiGB (p : Pack) : Nat :=
  ((p.files ++ p.loras ++ p.controlnet).filter (fun fe => sizeHasGB fe.2.size)).foldl
    (fun acc fe => acc + sizeNumCenti fe.2.size) 0

/-- The listing line printed for one pack: key, name, description, the
three group counts (`len(pack['files'])`, `len(pack.get('loras', {}))`,
`len(pack.get('controlnet', {}))`) and the estimated size. -/
def packListReport (kp : String × Pack) : Report :=
  .packListEntry kp.1 kp.2.name kp.2.description kp.2.files.length
    kp.2.loras.length kp.2.controlnet.length (estimatedSizeCentiGB kp.2)

/-- Embedding of `list_model_packs()`: iterates the catalog in order,
printing one entry per pack; it touches neither the filesystem nor the
network. -/
def list_model_packs (s : RunState) : RunState :=
  MODEL_PACKS.foldl (fun st kp => pushLog (packListReport kp) st) s

/-- The argparse `choices` list for the positional `pack` argument:
`list(MODEL_PACKS.keys()) + ['list']`. -/
def packChoices : List String := packKeys ++ ["list"]

/-- Whether argument parsing accepts a value for the positional `pack`
argument (argparse rejects, with an error exit, any value not in
`choices`). -/
def parseAccepts (v : String) : Bool := packChoices.contains v

/-- Embedding of the `__main__` dispatch: `'list'` runs the listing and
the process ends with exit code 0; any other (accepted) value runs
`download_model_pack` and the process exits 0 on success, 1 on failure. -/
def run_main (oracle : String → TransferOutcome) (packArg : String)
    (skipOptional skipLoras skipControlnet : Bool) (s : RunState) : Nat × RunState :=
  if packArg = "list" then
    (0, list_model_packs s)
  else
    let r := download_model_pack oracle packArg skipOptional skipLoras skipControlnet s
    ((if r.success then 0 else 1), r.state)

/-- Projection of a trace element to (entry key, whether `download_file`
was invoked on it). -/
def resultPlan : FileResult → String × Bool
  | .skippedOptional n => (n, false)
  | .fetched n _ _ => (n, true)

/-- The attempt plan of a group: which entries are iterated and whether
each is fetched, determined by the group declaration and the
`skip_optional` flag alone (independent of transfer outcomes and of the
filesystem). -/
def planGroup (skipOptional : Bool) (entries : List (String × FileEntry)) :
    List (String × Bool) :=
  entries.map (fun e => (e.1, !(skipOptional && e.2.optional)))

/-- Whether a trace contains no failed fetch of a non-optional entry; this
is the value the threaded `success` flag of the main-files loop computes. -/
def groupOk (rs : List FileResult) : Bool :=
  rs.all fun r =>
    match r with
    | .fetched _ opt ok => ok || opt
    | .skippedOptional _ => true

/-- Empty starting state: no files on disk, no requests made, no output. -/
def initState : RunState := { fs := [], requests := 0, log := [] }

/-- Oracle under which every transfer succeeds. -/
def oracleAllSuccess : String → TransferOutcome := fun _ => .success

/-- Oracle under which every transfer raises a connection error. -/
def oracleAllFail : String → TransferOutcome := fun _ => .connError

theorem pushLog_fs (r : Report) (s : RunState) : (pushLog r s).fs = s.fs := rfl

theorem pushLog_requests (r : Report) (s : RunState) :
    (pushLog r s).requests = s.requests := rfl

theorem download_file_exists (oracle : String → TransferOutcome) (url destination : String)
    (s : RunState) (h : destination ∈ s.fs) :
    download_file oracle url destination s = (true, pushLog (.alreadyExists destination) s) := by
  simp [download_file, h]

theorem download_file_success (oracle : String → TransferOutcome) (url destination : String)
    (s : RunState) (h : destination ∉ s.fs) (hs : oracle url = .success) :
    (download_file oracle url destination s).1 = true
    ∧ (download_file oracle url destination s).2.fs = destination :: s.fs
    ∧ (download_file oracle url destination s).2.requests = s.requests + 1 := by
  simp [download_file, h, hs, pushLog]

theorem download_file_fail (oracle : String → TransferOutcome) (url destination : String)
    (s : RunState) (h : destination ∉ s.fs) (hs : oracle url ≠ .success) :
    (download_file oracle url destination s).1 = false
    ∧ (download_file oracle url destination s).2.fs = s.fs
    ∧ (download_file oracle url destination s).2.requests = s.requests + 1 := by
  cases ho : oracle url
  · exact absurd ho hs
  all_goals
    simp [download_file, h, ho, TransferOutcome.partialWrite, pushLog, List.erase_cons_head]

theorem download_file_fs_mono (oracle : String → TransferOutcome) (url destination : String)
    (s : RunState) (x : String) (hx : x ∈ s.fs) :
    x ∈ (download_file oracle url destination s).2.fs := by
  by_cases h : destination ∈ s.fs
  · rw [download_file_exists oracle url destination s h]
    simpa [pushLog] using hx
  · by_cases hs : oracle url = .success
    · rw [(download_file_success oracle url destination s h hs).2.1]
      exact List.mem_cons_of_mem _ hx
    · rw [(download_file_fail oracle url destination s h hs).2.1]
      exact hx

theorem download_file_mem_of_oracle_success (oracle : String → TransferOutcome)
    (url destination : String) (s : RunState) (hs : oracle url = .success) :
    destination ∈ (download_file oracle url destination s).2.fs := by
  by_cases h : destination ∈ s.fs
  · rw [download_file_exists oracle url destination s h]
    simpa [pushLog] using h
  · rw [(download_file_success oracle url destination s h hs).2.1]
    exact List.mem_cons_self _ _

theorem download_file_requests_of_exists (oracle : String → TransferOutcome)
    (url destination : String) (s : RunState) (h : destination ∈ s.fs) :
    (download_file oracle url destination s).2.requests = s.requests
    ∧ (download_file oracle url destination s).2.fs = s.fs := by
  rw [download_file_exists oracle url destination s h]
  exact ⟨rfl, rfl⟩

theorem paux_cons_skip (oracle : String → TransferOutcome) (so : Bool) (nm : String)
    (fi : FileEntry) (rest : List (String × FileEntry)) (s : RunState)
    (h : (so && fi.optional) = true) :
    processAuxFiles oracle so ((nm, fi) :: rest) s =
      (.skippedOptional nm ::
         (processAuxFiles oracle so rest (pushLog (.skippingOptional nm) s)).1,
       (processAuxFiles oracle so rest (pushLog (.skippingOptional nm) s)).2) := by
  simp [processAuxFiles, h]

theorem paux_cons_fetch (oracle : String → TransferOutcome) (so : Bool) (nm : String)
    (fi : FileEntry) (rest : List (String × FileEntry)) (s : RunState)
    (h : (so && fi.optional) = false) :
    processAuxFiles oracle so ((nm, fi) :: rest) s =
      (.fetched nm fi.optional (download_file oracle fi.url fi.path s).1 ::
         (processAuxFiles oracle so rest (download_file oracle fi.url fi.path s).2).1,
       (processAuxFiles oracle so rest (download_file oracle fi.url fi.path s).2).2) := by
  have h' : ¬(so && fi.optional) = true := by simp [h]
  simp [processAuxFiles, h']

theorem planGroup_cons (so : Bool) (nm : String) (fi : FileEntry)
    (rest : List (String × FileEntry)) :
    planGroup so ((nm, fi) :: rest) = (nm, !(so && fi.optional)) :: planGroup so rest := rfl

theorem processAuxFiles_plan (oracle : String → TransferOutcome) (so : Bool) :
    ∀ (entries : List (String × FileEntry)) (s : RunState),
      ((processAuxFiles oracle so entries s).1).map resultPlan = planGroup so entries := by
  intro entries
  induction entries with
  | nil => intro s; simp [processAuxFiles, planGroup]
  | cons e rest ih =>
      obtain ⟨nm, fi⟩ := e
      intro s
      cases hb : (so && fi.optional) with
      | true =>
          rw [paux_cons_skip oracle so nm fi rest s hb, planGroup_cons]
          simp only [List.map_cons, resultPlan, hb, Bool.not_true]
          exact congrArg _ (ih _)
      | false =>
          rw [paux_cons_fetch oracle so nm fi rest s hb, planGroup_cons]
          simp only [List.map_cons, resultPlan, hb, Bool.not_false]
          exact congrArg _ (ih _)

theorem processAuxFiles_no_optional_fetch (oracle : String → TransferOutcome) :
    ∀ (entries : List (String × FileEntry)) (s : RunState) (nm : String) (ok : Bool),
      FileResult.fetched nm true ok ∉ (processAuxFiles oracle true entries s).1 := by
  intro entries
  induction entries with
  | nil => intro s nm ok; simp [processAuxFiles]
  | cons e rest ih =>
      obtain ⟨enm, fi⟩ := e
      intro s nm ok
      cases hopt : fi.optional with
      | true =>
          rw [paux_cons_skip oracle true enm fi rest s (by simp [hopt])]
          intro hmem
          rcases List.mem_cons.mp hmem with h1 | h2
          · exact FileResult.noConfusion h1
          · exact ih _ nm ok h2
      | false =>
          rw [paux_cons_fetch oracle true enm fi rest s (by simp [hopt])]
          intro hmem
          rcases List.mem_cons.mp hmem with h1 | h2
          · have : (true : Bool) = fi.optional := by
              injection h1 with e1 e2 e3
            rw [hopt] at this
            exact Bool.noConfusion this
          · exact ih _ nm ok h2

theorem processAuxFiles_fs_mono (oracle : String → TransferOutcome) (so : Bool) :
    ∀ (entries : List (String × FileEntry)) (s : RunState) (x : String),
      x ∈ s.fs → x ∈ (processAuxFiles oracle so entries s).2.fs := by
  intro entries
  induction entries with
  | nil => intro s x hx; simpa [processAuxFiles] using hx
  | cons e rest ih =>
      obtain ⟨enm, fi⟩ := e
      intro s x hx
      cases hb : (so && fi.optional) with
      | true =>
          rw [paux_cons_skip oracle so enm fi rest s hb]
          exact ih _ x hx
      | false =>
          rw [paux_cons_fetch oracle so enm fi rest s hb]
          exact ih _ x (download_file_fs_mono oracle fi.url fi.path s x hx)

theorem processAuxFiles_paths_covered (oracle : String → TransferOutcome) (so : Bool)
    (hs : ∀ u, oracle u = .success) :
    ∀ (entries : List (String × FileEntry)) (s : RunState),
      ∀ e ∈ entries, (so && e.2.optional) = false →
        e.2.path ∈ (processAuxFiles oracle so entries s).2.fs := by
  intro entries
  induction entries with
  | nil => intro s e he; exact absurd he (List.not_mem_nil e)
  | cons hd rest ih =>
      obtain ⟨enm, fi⟩ := hd
      intro s e he hatt
      rcases List.mem_cons.mp he with heq | hmem
      · subst heq
        rw [paux_cons_fetch oracle so enm fi rest s hatt]
        exact processAuxFiles_fs_mono oracle so rest _ _
          (download_file_mem_of_oracle_success oracle fi.url fi.path s (hs fi.url))
      · cases hb : (so && fi.optional) with
        | true =>
            rw [paux_cons_skip oracle so enm fi rest s hb]
            exact ih _ e hmem hatt
        | false =>
            rw [paux_cons_fetch oracle so enm fi rest s hb]
            exact ih _ e hmem hatt

theorem processAuxFiles_noop (oracle : String → TransferOutcome) (so : Bool) :
    ∀ (entries : List (String × FileEntry)) (s : RunState),
      (∀ e ∈ entries, (so && e.2.optional) = false → e.2.path ∈ s.fs) →
        (processAuxFiles oracle so entries s).2.fs = s.fs
        ∧ (processAuxFiles oracle so entries s).2.requests = s.requests := by
  intro entries
  induction entries with
  | nil => intro s _; exact ⟨rfl, rfl⟩
  | cons hd rest ih =>
      obtain ⟨enm, fi⟩ := hd
      intro s hcov
      cases hb : (so && fi.optional) with
      | true =>
          rw [paux_cons_skip oracle so enm fi rest s hb]
          exact ih _ (fun e he ha => hcov e (List.mem_cons_of_mem _ he) ha)
      | false =>
          have hmem : fi.path ∈ s.fs := hcov (enm, fi) (List.mem_cons_self _ _) hb
          rw [paux_cons_fetch oracle so enm fi rest s hb,
            download_file_exists oracle fi.url fi.path s hmem]
          exact ih _ (fun e he ha => hcov e (List.mem_cons_of_mem _ he) ha)

theorem pm_cons_skip (oracle : String → TransferOutcome) (so : Bool) (nm : String)
    (fi : FileEntry) (rest : List (String × FileEntry)) (acc : Bool) (s : RunState)
    (h : (so && fi.optional) = true) :
    processMainFiles oracle so ((nm, fi) :: rest) acc s =
      ((processMainFiles oracle so rest acc (pushLog (.skippingOptional nm) s)).1,
       .skippedOptional nm ::
         (processMainFiles oracle so rest acc (pushLog (.skippingOptional nm) s)).2.1,
       (processMainFiles oracle so rest acc (pushLog (.skippingOptional nm) s)).2.2) := by
  simp [processMainFiles, h]

theorem pm_cons_fetch (oracle : String → TransferOutcome) (so : Bool) (nm : String)
    (fi : FileEntry) (rest : List (String × FileEntry)) (acc : Bool) (s : RunState)
    (h : (so && fi.optional) = false) :
    processMainFiles oracle so ((nm, fi) :: rest) acc s =
      ((processMainFiles oracle so rest
          (acc && ((download_file oracle fi.url fi.path s).1 || fi.optional))
          (download_file oracle fi.url fi.path s).2).1,
       .fetched nm fi.optional (download_file oracle fi.url fi.path s).1 ::
         (processMainFiles oracle so rest
            (acc && ((download_file oracle fi.url fi.path s).1 || fi.optional))
            (download_file oracle fi.url fi.path s).2).2.1,
       (processMainFiles oracle so rest
          (acc && ((download_file oracle fi.url fi.path s).1 || fi.optional))
          (download_file oracle fi.url fi.path s).2).2.2) := by
  have h' : ¬(so && fi.optional) = true := by simp [h]
  have hsucc : (if !(download_file oracle fi.url fi.path s).1 && !fi.optional
      then false else acc)
      = (acc && ((download_file oracle fi.url fi.path s).1 || fi.optional)) := by
    cases hd : (download_file oracle fi.url fi.path s).1 <;>
      cases ho : fi.optional <;> cases acc <;> simp
  simp only [processMainFiles, h', if_false, ite_false, Bool.false_eq_true, hsucc]

theorem groupOk_nil : groupOk [] = true := rfl

theorem groupOk_cons_skipped (n : String) (rs : List FileResult) :
    groupOk (.skippedOptional n :: rs) = groupOk rs := by
  simp [groupOk]

theorem groupOk_cons_fetched (n : String) (opt ok : Bool) (rs : List FileResult) :
    groupOk (.fetched n opt ok :: rs) = ((ok || opt) && groupOk rs) := by
  simp [groupOk]

theorem processMainFiles_eq_aux (oracle : String → TransferOutcome) (so : Bool) :
    ∀ (entries : List (String × FileEntry)) (acc : Bool) (s : RunState),
      processMainFiles oracle so entries acc s =
        (acc && groupOk (processAuxFiles oracle so entries s).1,
         (processAuxFiles oracle so entries s).1,
         (processAuxFiles oracle so entries s).2) := by
  intro entries
  induction entries with
  | nil => intro acc s; simp [processMainFiles, processAuxFiles, groupOk]
  | cons hd rest ih =>
      obtain ⟨nm, fi⟩ := hd
      intro acc s
      cases hb : (so && fi.optional) with
      | true =>
          rw [pm_cons_skip oracle so nm fi rest acc s hb,
            paux_cons_skip oracle so nm fi rest s hb, ih, groupOk_cons_skipped]
      | false =>
          rw [pm_cons_fetch oracle so nm fi rest acc s hb,
            paux_cons_fetch oracle so nm fi rest s hb, ih, groupOk_cons_fetched]
          simp [Bool.and_assoc]

theorem groupOk_eq_true_iff :
    ∀ rs : List FileResult,
      groupOk rs = true ↔ ∀ nm, FileResult.fetched nm false false ∉ rs := by
  intro rs
  induction rs with
  | nil => simp [groupOk]
  | cons r rest ih =>
      cases r with
      | skippedOptional n =>
          rw [groupOk_cons_skipped]
          constructor
          · intro h nm hmem
            rcases List.mem_cons.mp hmem with h1 | h2
            · exact FileResult.noConfusion h1
            · exact ih.mp h nm h2
          · intro h
            exact ih.mpr (fun nm hm => h nm (List.mem_cons_of_mem _ hm))
      | fetched n opt ok =>
          rw [groupOk_cons_fetched]
          constructor
          · intro h nm hmem
            rcases List.mem_cons.mp hmem with h1 | h2
            · injection h1 with e1 e2 e3
              rw [← e2, ← e3] at h
              simp at h
            · exact ih.mp (Bool.and_elim_right h) nm h2
          · intro h
            have hok : (ok || opt) = true := by
              by_contra hc
              have hok2 : ok = false ∧ opt = false := by
                cases ok <;> cases opt <;> simp at hc ⊢
              exact h n (by rw [hok2.1, hok2.2]; exact List.mem_cons_self _ _)
            rw [hok, Bool.true_and]
            exact ih.mpr (fun nm hm => h nm (List.mem_cons_of_mem _ hm))

theorem lookupPack_list_none : lookupPack "list" = none := by decide

/-- C3: whenever the transfer of `download_file` raises a transport or
HTTP-status error, the function returns `false`, afterwards the
destination path does not exist (a partially written destination file has
been deleted and the filesystem is as before the call), and exactly one
request was made within the invocation (no retry). -/
theorem download_file_error_cleans_up (oracle : String → TransferOutcome)
    (url destination : String) (s : RunState)
    (h : destination ∉ s.fs) (he : oracle url ≠ .success) :
    (download_file oracle url destination s).1 = false
    ∧ destination ∉ (download_file oracle url destination s).2.fs
    ∧ (download_file oracle url destination s).2.fs = s.fs
    ∧ (download_file oracle url destination s).2.requests = s.requests + 1 := by
  obtain ⟨h1, h2, h3⟩ := download_file_fail oracle url destination s h he
  exact ⟨h1, by rw [h2]; exact h, h2, h3⟩

/-- Witness for C3 at a concrete input: a mid-write error on a fresh
destination returns `false`, deletes the partial file and makes exactly
one request. -/
theorem download_file_error_cleans_up_witness :
    (download_file (fun _ => TransferOutcome.writeError) "u" "/p" initState).1 = false
    ∧ "/p" ∉ (download_file (fun _ => TransferOutcome.writeError) "u" "/p" initState).2.fs
    ∧ (download_file (fun _ => TransferOutcome.writeError) "u" "/p" initState).2.fs
        = initState.fs
    ∧ (download_file (fun _ => TransferOutcome.writeError) "u" "/p" initState).2.requests
        = initState.requests + 1 :=
  download_file_error_cleans_up (fun _ => TransferOutcome.writeError) "u" "/p" initState
    (by decide) (by decide)

/-- C4: for every URL and every destination that already exists,
`download_file` makes no network request, leaves the filesystem unchanged,
reports the file as skipped, and returns `true`. -/
theorem download_file_skips_existing (oracle : String → TransferOutcome)
    (url destination : String) (s : RunState) (h : destination ∈ s.fs) :
    (download_file oracle url destination s).1 = true
    ∧ (download_file oracle url destination s).2.fs = s.fs
    ∧ (download_file oracle url destination s).2.requests = s.requests
    ∧ (download_file oracle url destination s).2.log
        = s.log ++ [.alreadyExists destination] := by
  rw [download_file_exists oracle url destination s h]
  exact ⟨rfl, rfl, rfl, rfl⟩

/-- Witness for C4 at a concrete input: an invalid URL and an existing
destination give a skip with no request. -/
theorem download_file_skips_existing_witness :
    (download_file oracleAllFail "not a url"
        (slash VAE_DIR "sdxl_vae.safetensors")
        { fs := [slash VAE_DIR "sdxl_vae.safetensors"], requests := 0, log := [] }).1 = true
    ∧ (download_file oracleAllFail "not a url"
        (slash VAE_DIR "sdxl_vae.safetensors")
        { fs := [slash VAE_DIR "sdxl_vae.safetensors"], requests := 0, log := [] }).2.fs
        = ({ fs := [slash VAE_DIR "sdxl_vae.safetensors"], requests := 0,
             log := [] } : RunState).fs
    ∧ (download_file oracleAllFail "not a url"
        (slash VAE_DIR "sdxl_vae.safetensors")
        { fs := [slash VAE_DIR "sdxl_vae.safetensors"], requests := 0, log := [] }).2.requests
        = ({ fs := [slash VAE_DIR "sdxl_vae.safetensors"], requests := 0,
             log := [] } : RunState).requests
    ∧ (download_file oracleAllFail "not a url"
        (slash VAE_DIR "sdxl_vae.safetensors")
        { fs := [slash VAE_DIR "sdxl_vae.safetensors"], requests := 0, log := [] }).2.log
        = ({ fs := [slash VAE_DIR "sdxl_vae.safetensors"], requests := 0,
             log := [] } : RunState).log
          ++ [.alreadyExists (slash VAE_DIR "sdxl_vae.safetensors")] :=
  download_file_skips_existing oracleAllFail "not a url"
    (slash VAE_DIR "sdxl_vae.safetensors")
    { fs := [slash VAE_DIR "sdxl_vae.safetensors"], requests := 0, log := [] }
    (by decide)

/-- C9: `download_file` is total at its interface: for every oracle (in
particular for each of the modelled exception kinds: connection, timeout,
HTTP status, file write) the call returns a boolean rather than
propagating, and the returned boolean is `false` exactly when a transfer
was attempted (destination absent) and its outcome was an error. -/
theorem download_file_false_iff (oracle : String → TransferOutcome)
    (url destination : String) (s : RunState) :
    (download_file oracle url destination s).1 = false
      ↔ (destination ∉ s.fs ∧ oracle url ≠ .success) := by
  by_cases h : destination ∈ s.fs
  · rw [download_file_exists oracle url destination s h]
    simp [h]
  · by_cases hs : oracle url = .success
    · simp [(download_file_success oracle url destination s h hs).1, h, hs]
    · simp [(download_file_fail oracle url destination s h hs).1, h, hs]

/-- C5: for every string that is not a catalog key, `download_model_pack`
returns `false`, reports "not found" together with the set of valid pack
keys, and performs no network call and no filesystem write. -/
theorem unknown_pack_no_effects (oracle : String → TransferOutcome) (key : String)
    (so sl sc : Bool) (s : RunState) (h : lookupPack key = none) :
    (download_model_pack oracle key so sl sc s).success = false
    ∧ (download_model_pack oracle key so sl sc s).state.fs = s.fs
    ∧ (download_model_pack oracle key so sl sc s).state.requests = s.requests
    ∧ (download_model_pack oracle key so sl sc s).state.log
        = s.log ++ [.packNotFound key packKeys] := by
  simp [download_model_pack, h, pushLog]

/-- Witness for C5 at a concrete input: the key "sd3" is not in the
catalog. -/
theorem unknown_pack_no_effects_witness :
    (download_model_pack oracleAllFail "sd3" false false false initState).success = false
    ∧ (download_model_pack oracleAllFail "sd3" false false false initState).state.fs
        = initState.fs
    ∧ (download_model_pack oracleAllFail "sd3" false false false initState).state.requests
        = initState.requests
    ∧ (download_model_pack oracleAllFail "sd3" false false false initState).state.log
        = initState.log ++ [.packNotFound "sd3" packKeys] :=
  unknown_pack_no_effects oracleAllFail "sd3" false false false initState (by decide)

/-- C6: `skip_optional` prevents every optional-flagged entry from being
fetched in all three iterated groups; `skip_loras` drops the whole LoRA
group and `skip_controlnet` the whole ControlNet group, regardless of
optional flags. -/
theorem skip_flags_exclude (oracle : String → TransferOutcome) (key : String)
    (so sl sc : Bool) (s : RunState) :
    (∀ nm ok,
        FileResult.fetched nm true ok
            ∉ (download_model_pack oracle key true sl sc s).mainResults
        ∧ FileResult.fetched nm true ok
            ∉ (download_model_pack oracle key true sl sc s).loraResults
        ∧ FileResult.fetched nm true ok
            ∉ (download_model_pack oracle key true sl sc s).cnResults)
    ∧ (download_model_pack oracle key so true sc s).loraResults = []
    ∧ (download_model_pack oracle key so sl true s).cnResults = [] := by
  cases h : lookupPack key with
  | none => simp [download_model_pack, h]
  | some pack =>
      refine ⟨fun nm ok => ⟨?_, ?_, ?_⟩, ?_, ?_⟩
      · simp only [download_model_pack, h, processMainFiles_eq_aux]
        exact processAuxFiles_no_optional_fetch oracle pack.files _ nm ok
      · simp only [download_model_pack, h, processMainFiles_eq_aux]
        cases sl with
        | false =>
            simp only [Bool.not_false, if_true]
            exact processAuxFiles_no_optional_fetch oracle pack.loras _ nm ok
        | true => simp
      · simp only [download_model_pack, h, processMainFiles_eq_aux]
        cases sc with
        | false =>
            simp only [Bool.not_false, if_true]
            cases sl with
            | false =>
                simp only [Bool.not_false, if_true]
                exact processAuxFiles_no_optional_fetch oracle pack.controlnet _ nm ok
            | true =>
                simp only [Bool.not_true, if_false]
                exact processAuxFiles_no_optional_fetch oracle pack.controlnet _ nm ok
        | true => simp
      · simp [download_model_pack, h]
      · simp [download_model_pack, h]

/-- C1: for every catalog pack and every outcome of the per-file
transfers, `download_model_pack` returns `true` exactly when no
non-optional entry of the main-files group had a failed fetch; the set of
iterated main entries (and which of them are fetched) is fixed by the pack
and the `skip_optional` flag alone, independent of transfer outcomes, so a
failure never aborts the remaining files; the process exit code is 0 when
the result is `true` and 1 otherwise, and listing mode exits 0. -/
theorem pack_success_iff_and_exit (oracle : String → TransferOutcome) (key : String)
    (pack : Pack) (so sl sc : Bool) (s : RunState) (h : lookupPack key = some pack) :
    ((download_model_pack oracle key so sl sc s).success = true
       ↔ ∀ nm, FileResult.fetched nm false false
           ∉ (download_model_pack oracle key so sl sc s).mainResults)
    ∧ ((download_model_pack oracle key so sl sc s).mainResults.map resultPlan
        = planGroup so pack.files)
    ∧ (run_main oracle key so sl sc s).1
        = (if (download_model_pack oracle key so sl sc s).success then 0 else 1)
    ∧ (run_main oracle "list" so sl sc s).1 = 0 := by
  have hklist : key ≠ "list" := by
    intro hk
    rw [hk, lookupPack_list_none] at h
    exact Option.noConfusion h
  refine ⟨?_, ?_, ?_, ?_⟩
  · simp only [download_model_pack, h, processMainFiles_eq_aux, Bool.true_and]
    exact groupOk_eq_true_iff _
  · simp only [download_model_pack, h, processMainFiles_eq_aux]
    exact processAuxFiles_plan oracle so pack.files _
  · simp [run_main, hklist]
  · simp [run_main]

/-- Witness for C1 at a concrete input: on the `sdxl` pack with every
transfer failing, the required checkpoint fetch fails, so the pack result
is `false` and the exit code is 1; listing mode exits 0. -/
theorem pack_success_iff_and_exit_witness :
    (download_model_pack oracleAllFail "sdxl" false false false initState).success = false
    ∧ (run_main oracleAllFail "sdxl" false false false initState).1 = 1
    ∧ (run_main oracleAllFail "list" false false false initState).1 = 0 := by
  have h := pack_success_iff_and_exit oracleAllFail "sdxl" sdxl_pack false false false
    initState rfl
  have hmem : FileResult.fetched "checkpoint" false false
      ∈ (download_model_pack oracleAllFail "sdxl" false false false initState).mainResults := by
    decide
  have hfalse : (download_model_pack oracleAllFail "sdxl" false false false
      initState).success = false := by
    cases hb : (download_model_pack oracleAllFail "sdxl" false false false
        initState).success with
    | false => rfl
    | true => exact absurd hmem (h.1.mp hb "checkpoint")
  refine ⟨hfalse, ?_, h.2.2.2⟩
  rw [h.2.2.1, hfalse]
  rfl

theorem aux_stage_mono (oracle : String → TransferOutcome) (so flag : Bool)
    (entries : List (String × FileEntry)) (s : RunState) (x : String) (hx : x ∈ s.fs) :
    x ∈ (if !flag then processAuxFiles oracle so entries s else ([], s)).2.fs := by
  cases flag with
  | false => simpa using processAuxFiles_fs_mono oracle so entries s x hx
  | true => simpa using hx

theorem aux_stage_noop (oracle : String → TransferOutcome) (so flag : Bool)
    (entries : List (String × FileEntry)) (s : RunState)
    (hcov : flag = false → ∀ e ∈ entries, (so && e.2.optional) = false → e.2.path ∈ s.fs) :
    (if !flag then processAuxFiles oracle so entries s else ([], s)).2.fs = s.fs
    ∧ (if !flag then processAuxFiles oracle so entries s
        else ([], s)).2.requests = s.requests := by
  cases flag with
  | false => simpa using processAuxFiles_noop oracle so entries s (hcov rfl)
  | true => simp

theorem dmp_covers_attempted (oracle : String → TransferOutcome) (key : String)
    (pack : Pack) (so sl sc : Bool) (s : RunState)
    (hk : lookupPack key = some pack) (hs : ∀ u, oracle u = .success) :
    (∀ e ∈ pack.files, (so && e.2.optional) = false →
        e.2.path ∈ (download_model_pack oracle key so sl sc s).state.fs)
    ∧ (sl = false → ∀ e ∈ pack.loras, (so && e.2.optional) = false →
        e.2.path ∈ (download_model_pack oracle key so sl sc s).state.fs)
    ∧ (sc = false → ∀ e ∈ pack.controlnet, (so && e.2.optional) = false →
        e.2.path ∈ (download_model_pack oracle key so sl sc s).state.fs) := by
  refine ⟨?_, ?_, ?_⟩
  · intro e he hatt
    simp only [download_model_pack, hk, processMainFiles_eq_aux]
    exact aux_stage_mono oracle so sc pack.controlnet _ _
      (aux_stage_mono oracle so sl pack.loras _ _
        (processAuxFiles_paths_covered oracle so hs pack.files _ e he hatt))
  · intro hsl e he hatt
    simp only [download_model_pack, hk, processMainFiles_eq_aux, hsl, Bool.not_false, if_true]
    exact aux_stage_mono oracle so sc pack.controlnet _ _
      (processAuxFiles_paths_covered oracle so hs pack.loras _ e he hatt)
  · intro hsc e he hatt
    simp only [download_model_pack, hk, processMainFiles_eq_aux, hsc, Bool.not_false, if_true]
    exact processAuxFiles_paths_covered oracle so hs pack.controlnet _ e he hatt

theorem dmp_noop_when_covered (oracle : String → TransferOutcome) (key : String)
    (pack : Pack) (so sl sc : Bool) (s : RunState)
    (hk : lookupPack key = some pack)
    (hf : ∀ e ∈ pack.files, (so && e.2.optional) = false → e.2.path ∈ s.fs)
    (hl : sl = false → ∀ e ∈ pack.loras, (so && e.2.optional) = false → e.2.path ∈ s.fs)
    (hc : sc = false → ∀ e ∈ pack.controlnet, (so && e.2.optional) = false →
        e.2.path ∈ s.fs) :
    (download_model_pack oracle key so sl sc s).state.fs = s.fs
    ∧ (download_model_pack oracle key so sl sc s).state.requests = s.requests := by
  simp only [download_model_pack, hk, processMainFiles_eq_aux]
  have h0 := processAuxFiles_noop oracle so pack.files
    (pushLog (.packHeader pack.name pack.description) s) hf
  have h1 := aux_stage_noop oracle so sl pack.loras
    (processAuxFiles oracle so pack.files
      (pushLog (.packHeader pack.name pack.description) s)).2
    (fun hsl e he ha => h0.1 ▸ hl hsl e he ha)
  have h2 := aux_stage_noop oracle so sc pack.controlnet _
    (fun hsc e he ha => h1.1 ▸ h0.1 ▸ hc hsc e he ha)
  rw [h2.1, h1.1, h0.1, h2.2, h1.2, h0.2]
  exact ⟨rfl, rfl⟩

/-- C7 as stated is false: after a first run in which a transfer failed,
the failed destination does not exist (the handler deleted it), so an
immediate second run of the same command repeats the network calls.
Concretely, running the `sd15` pack twice from an empty filesystem with
every transfer failing makes 4 network calls on the second run, not 0. -/
theorem second_run_counterexample :
    (download_model_pack oracleAllFail "sd15" false false false
        { fs := (download_model_pack oracleAllFail "sd15" false false false
            initState).state.fs
          requests := 0
          log := [] }).state.requests = 4 := by
  decide

/-- C7 amended: if every transfer of the first run succeeded, then a
second run of the same pack-download command with the same flags and no
intervening deletions performs zero network calls (every destination
attempted by the first run already exists); this holds for every pack key
and every outcome oracle of the second run. -/
theorem second_run_zero_requests (oracle1 oracle2 : String → TransferOutcome)
    (key : String) (so sl sc : Bool) (s : RunState)
    (h : ∀ u, oracle1 u = .success) :
    (download_model_pack oracle2 key so sl sc
        { fs := (download_model_pack oracle1 key so sl sc s).state.fs
          requests := 0
          log := [] }).state.requests = 0 := by
  cases hk : lookupPack key with
  | none => simp [download_model_pack, hk, pushLog]
  | some pack =>
      obtain ⟨hf, hl, hc⟩ := dmp_covers_attempted oracle1 key pack so sl sc s hk h
      exact (dmp_noop_when_covered oracle2 key pack so sl sc
        { fs := (download_model_pack oracle1 key so sl sc s).state.fs
          requests := 0
          log := [] } hk hf hl hc).2

/-- Witness for the amended C7 at a concrete input: after a fully
successful `sd15` run, an immediate second run makes zero network
calls. -/
theorem second_run_zero_requests_witness :
    (download_model_pack oracleAllFail "sd15" false false false
        { fs := (download_model_pack oracleAllSuccess "sd15" false false false
            initState).state.fs
          requests := 0
          log := [] }).state.requests = 0 :=
  second_run_zero_requests oracleAllSuccess oracleAllFail "sd15" false false false
    initState (fun _ => rfl)

theorem lookup_of_mem_keys :
    ∀ (l : List (String × Pack)) (k : String),
      k ∈ l.map Prod.fst → ∃ p, l.lookup k = some p := by
  intro l
  induction l with
  | nil => intro k hk; exact absurd hk (by simp)
  | cons hd rest ih =>
      intro k hk
      obtain ⟨a, b⟩ := hd
      by_cases hke : k = a
      · exact ⟨b, by simp [List.lookup, hke]⟩
      · have hmem : k ∈ rest.map Prod.fst := by
          simp only [List.map_cons, List.mem_cons] at hk
          exact hk.resolve_left hke
        obtain ⟨p, hp⟩ := ih k hmem
        exact ⟨p, by simp [List.lookup, beq_eq_false_iff_ne.mpr hke, hp]⟩

/-- C10: the command-line parser accepts exactly the catalog keys plus the
literal `"list"` as the positional pack argument, and any accepted value
other than `"list"` resolves in the catalog, so the internal "pack not
found" branch of `download_model_pack` is unreachable through the
command-line interface. -/
theorem parser_choices_exact (v : String) :
    (parseAccepts v = true ↔ (v ∈ packKeys ∨ v = "list"))
    ∧ (parseAccepts v = true → v ≠ "list" → ∃ p, lookupPack v = some p) := by
  have hiff : parseAccepts v = true ↔ (v ∈ packKeys ∨ v = "list") := by
    rw [show parseAccepts v = (packChoices.contains v) from rfl, List.elem_iff]
    simp [packChoices]
  refine ⟨hiff, fun hp hne => ?_⟩
  rcases hiff.mp hp with hmem | hlist
  · exact lookup_of_mem_keys MODEL_PACKS v hmem
  · exact absurd hlist hne

/-- Witness for C10 at a concrete input: "sdxl" is accepted and resolves
in the catalog. -/
theorem parser_choices_exact_witness :
    parseAccepts "sdxl" = true ∧ (∃ p, lookupPack "sdxl" = some p) :=
  ⟨(parser_choices_exact "sdxl").1.mpr (Or.inl (by decide)),
   (parser_choices_exact "sdxl").2 (by decide) (by decide)⟩

/-- C2 as stated is false: the `sdxl` catalog entry declares one
embedding, but `download_model_pack` never iterates the `embeddings`
group, so no embedding entry is ever attempted.  Concretely, running the
`sdxl` pack with all skip flags false, from an empty filesystem and with
every transfer succeeding, makes exactly 6 network requests (3 main files
plus 3 LoRAs) and does not create the embedding's destination file. -/
theorem sdxl_embedding_never_attempted :
    sdxl_pack.embeddings.length = 1
    ∧ (download_model_pack oracleAllSuccess "sdxl" false false false
        initState).state.requests = 6
    ∧ slash EMBEDDINGS_DIR "RealisticSkin.safetensors"
        ∉ (download_model_pack oracleAllSuccess "sdxl" false false false
            initState).state.fs := by
  decide

/-- C2 amended: the `sdxl` pack with all skip flags false attempts
exactly the 3 main-file entries (checkpoint, refiner, vae) and the 3 LoRA
entries, and no embedding entry (the `embeddings` group declared in the
catalog is never iterated); with `skip_optional` and `skip_loras` set,
exactly the checkpoint and vae main files are attempted and nothing
else. -/
theorem sdxl_attempt_plan :
    ((download_model_pack oracleAllSuccess "sdxl" false false false
        initState).mainResults.map resultPlan
      = [("checkpoint", true), ("refiner", true), ("vae", true)])
    ∧ ((download_model_pack oracleAllSuccess "sdxl" false false false
        initState).loraResults.map resultPlan
      = [("realistic_skin_texture", true), ("skin_realism_acne", true),
         ("touch_of_realism", true)])
    ∧ (download_model_pack oracleAllSuccess "sdxl" false false false
        initState).cnResults = []
    ∧ (download_model_pack oracleAllSuccess "sdxl" false false false
        initState).state.requests = 6
    ∧ (download_model_pack oracleAllFail "sdxl" false false false
        initState).state.requests = 6
    ∧ ((download_model_pack oracleAllSuccess "sdxl" true true false
        initState).mainResults.map resultPlan
      = [("checkpoint", true), ("refiner", false), ("vae", true)])
    ∧ (download_model_pack oracleAllSuccess "sdxl" true true false
        initState).loraResults = []
    ∧ (download_model_pack oracleAllSuccess "sdxl" true true false
        initState).cnResults = []
    ∧ (download_model_pack oracleAllSuccess "sdxl" true true false
        initState).state.requests = 2 := by
  decide

theorem list_foldl_log :
    ∀ (l : List (String × Pack)) (s : RunState),
      (l.foldl (fun st kp => pushLog (packListReport kp) st) s).log
          = s.log ++ l.map packListReport
      ∧ (l.foldl (fun st kp => pushLog (packListReport kp) st) s).fs = s.fs
      ∧ (l.foldl (fun st kp => pushLog (packListReport kp) st) s).requests
          = s.requests := by
  intro l
  induction l with
  | nil => intro s; simp
  | cons kp rest ih =>
      intro s
      simp only [List.foldl_cons, List.map_cons]
      obtain ⟨h1, h2, h3⟩ := ih (pushLog (packListReport kp) s)
      refine ⟨?_, h2, h3⟩
      rw [h1]
      simp [pushLog]

/-- C8 as stated is false: the estimated total size shown by the listing
sums only the main-files group's gigabyte-scale labels, so a gigabyte-scale
LoRA label does not contribute.  Concretely the `wan22` listing line shows
31.89 GB (its three 2.1 GB LoRA labels excluded), while the sum of the
numeric portions of all of the pack's gigabyte-scale labels is
38.19 GB. -/
theorem listing_size_counterexample :
    Report.packListEntry "wan22" wan22_pack.name wan22_pack.description 4 3 0 3189
        ∈ (list_model_packs initState).log
    ∧ estimatedSizeCentiGB wan22_pack = 3189
    ∧ specEstimatedSizeAllGroupsCentiGB wan22_pack = 3819 := by
  decide

/-- C8 amended: `list_model_packs` visits every catalog key exactly once,
in order, printing for each the name, description, and the counts of main
files, LoRAs, and ControlNets, together with an estimated total size equal
to the sum of the numeric portions of the gigabyte-scale size labels of
the main-files group only (labels in smaller units, and all LoRA and
ControlNet labels, contribute nothing); it performs no network call and no
filesystem write. -/
theorem list_model_packs_spec (s : RunState) :
    (list_model_packs s).log = s.log ++ MODEL_PACKS.map packListReport
    ∧ (list_model_packs s).fs = s.fs
    ∧ (list_model_packs s).requests = s.requests
    ∧ MODEL_PACKS.map packListReport =
        [ .packListEntry "flux-dev" flux_dev_pack.name
            flux_dev_pack.description 4 1 0 3359
        , .packListEntry "flux-schnell" flux_schnell_pack.name
            flux_schnell_pack.description 4 0 0 2869
        , .packListEntry "sdxl" sdxl_pack.name sdxl_pack.description 3 3 0 1302
        , .packListEntry "sdxl-biglove" sdxl_biglove_pack.name
            sdxl_biglove_pack.description 2 1 0 646
        , .packListEntry "wan22" wan22_pack.name wan22_pack.description 4 3 0 3189
        , .packListEntry "qwen-image" qwen_image_pack.name
            qwen_image_pack.description 3 2 0 1200
        , .packListEntry "sd15" sd15_pack.name sd15_pack.description 2 0 2 397
        , .packListEntry "upscalers" upscalers_pack.name
            upscalers_pack.description 7 2 0 920 ] := by
  obtain ⟨h1, h2, h3⟩ := list_foldl_log MODEL_PACKS s
  exact ⟨h1, h2, h3, by decide⟩
